import Mathlib

/-!
Shallow embedding of the E-Products backend (`src/main.py`) and of the parts
of the repository it imports (`database.py`, `schemas.py`) that are not in
the source tree, modelled from the specification.

Documents are modelled as ordered association lists of string keys and
scalar values, matching Python dicts as used by the handlers.
-/

namespace EProducts

/-- Scalar values that appear in the documents handled by the service. -/
inductive PyVal where
  | str (s : String)
  | num (q : ℚ)
  | boolean (b : Bool)
  | null
deriving DecidableEq

/-- A Python dict with string keys, as an ordered association list. -/
abbrev Dict : Type := List (String × PyVal)

/-- Lookup of a key in a dict (first binding wins; keys are unique in practice). -/
def dictGet (d : Dict) (k : String) : Option PyVal :=
  match d with
  | [] => Option.none
  | (k1, v) :: rest => if k1 = k then Option.some v else dictGet rest k

/-- Removal of a key from a dict, as Python's `pop` leaves the dict. -/
def dictRemove (d : Dict) (k : String) : Dict :=
  match d with
  | [] => []
  | (k1, v) :: rest => if k1 = k then dictRemove rest k else (k1, v) :: dictRemove rest k

/-- Python assignment `d[k] = v`: replace in place when the key exists, else append. -/
def dictSet (d : Dict) (k : String) (v : PyVal) : Dict :=
  match d with
  | [] => [(k, v)]
  | (k1, v1) :: rest => if k1 = k then (k1, v) :: rest else (k1, v1) :: dictSet rest k v

/-- Python `str()` rendering of a scalar value (only applied to `_id` values). -/
def pyStr : PyVal → String
  | .str s => s
  | .num q => toString q
  | .boolean b => if b then "True" else "False"
  | .null => "None"

/-- Source `main.py` lines 63-69: rename the internal `_id` key of a document to a
public `id` string field; an empty (falsy) document is returned unchanged. -/
def _serialize (doc : Dict) : Dict :=
  if doc = [] then doc
  else
    match dictGet doc "_id" with
    | Option.none => doc
    | Option.some v => dictSet (dictRemove doc "_id") "id" (PyVal.str (pyStr v))

/-- Source `main.py` lines 72-91, first demo product. -/
def demoProduct1 : Dict :=
  [("title", PyVal.str "Mastering React for Beginners"),
   ("description", PyVal.str "Interactive e-book with hands-on projects."),
   ("price", PyVal.num 29),
   ("cover_image", PyVal.str "https://images.unsplash.com/photo-1555066931-4365d14bab8c?q=80&w=1200&auto=format&fit=crop"),
   ("category", PyVal.str "ebook"),
   ("download_url", PyVal.null),
   ("in_stock", PyVal.boolean true)]

/-- Source `main.py` lines 72-91, second demo product. -/
def demoProduct2 : Dict :=
  [("title", PyVal.str "Full-Stack Course Bundle"),
   ("description", PyVal.str "Self-paced video + workbook bundle."),
   ("price", PyVal.num 79),
   ("cover_image", PyVal.str "https://images.unsplash.com/photo-1515879218367-8466d910aaa4?q=80&w=1200&auto=format&fit=crop"),
   ("category", PyVal.str "course"),
   ("download_url", PyVal.null),
   ("in_stock", PyVal.boolean true)]

/-- Source `main.py` lines 72-91: the static fallback product set. -/
def DEMO_PRODUCTS : List Dict := [demoProduct1, demoProduct2]

/-- Source `main.py` lines 93-121, first demo library item (the only one of kind "book"). -/
def demoLib1 : Dict :=
  [("title", PyVal.str "Clean Code"),
   ("kind", PyVal.str "book"),
   ("platform", PyVal.str "Amazon"),
   ("link", PyVal.str "https://www.amazon.com/dp/0132350882"),
   ("thumbnail", PyVal.str "https://images.unsplash.com/photo-1515879218367-8466d910aaa4?q=80&w=600&auto=format&fit=crop"),
   ("author_or_channel", PyVal.str "Robert C. Martin"),
   ("note", PyVal.str "A classic on writing maintainable software.")]

/-- Source `main.py` lines 93-121, second demo library item (kind "video"). -/
def demoLib2 : Dict :=
  [("title", PyVal.str "React Hooks Crash Course"),
   ("kind", PyVal.str "video"),
   ("platform", PyVal.str "YouTube"),
   ("link", PyVal.str "https://www.youtube.com/results?search_query=react+hooks+crash+course"),
   ("thumbnail", PyVal.str "https://i.ytimg.com/vi/DPnqb74Smug/maxresdefault.jpg"),
   ("author_or_channel", PyVal.str "Traversy Media"),
   ("note", PyVal.str "Great intro to hooks.")]

/-- Source `main.py` lines 93-121, third demo library item (kind "streaming"). -/
def demoLib3 : Dict :=
  [("title", PyVal.str "Our Planet"),
   ("kind", PyVal.str "streaming"),
   ("platform", PyVal.str "Netflix"),
   ("link", PyVal.str "https://www.netflix.com/title/80049832"),
   ("thumbnail", PyVal.str "https://images.unsplash.com/photo-1518733057094-95b53143d2a7?q=80&w=1200&auto=format&fit=crop"),
   ("author_or_channel", PyVal.str "Netflix"),
   ("note", PyVal.str "Nature documentary (desktop only link).")]

/-- Source `main.py` lines 93-121: the static fallback library set. -/
def DEMO_LIBRARY : List Dict := [demoLib1, demoLib2, demoLib3]

/-- Exceptions that the embedded handler bodies can raise; read handlers
swallow them all, so no payload beyond the kind is needed. -/
inductive PyErr where
  | typeError
  | keyError
  | validationError
  | storeError
deriving DecidableEq

/-- Modelled from the spec: `schemas.py` is not in the source tree. Data-model
row for DigitalProduct: id (string, assigned by store), title, description,
price (decimal), cover_image, category, download_url (optional), in_stock. -/
structure DigitalProduct where
  id : String
  title : String
  description : String
  price : ℚ
  cover_image : String
  category : String
  download_url : Option String
  in_stock : Bool
deriving DecidableEq

/-- Modelled from the spec: `schemas.py` is not in the source tree. Data-model
row for LibraryItem: title, kind (enum book|video|streaming), platform, link,
thumbnail, author_or_channel, note. -/
structure LibraryItem where
  title : String
  kind : String
  platform : String
  link : String
  thumbnail : String
  author_or_channel : String
  note : String
deriving DecidableEq

/-- Modelled from the spec: `schemas.py` is not in the source tree. Data-model
row for Order: email (string, RFC-shaped), product_id (string reference). -/
structure Order where
  email : String
  product_id : String
deriving DecidableEq

/-- Required string field extraction during model validation. -/
def reqStr (d : Dict) (k : String) : Except PyErr String :=
  match dictGet d k with
  | Option.some (PyVal.str s) => Except.ok s
  | _ => Except.error PyErr.validationError

/-- Optional string field extraction during model validation: absent or null
defaults to `none`; any other non-string value is rejected. -/
def optStr (d : Dict) (k : String) : Except PyErr (Option String) :=
  match dictGet d k with
  | Option.some (PyVal.str s) => Except.ok (Option.some s)
  | Option.some PyVal.null => Except.ok Option.none
  | Option.none => Except.ok Option.none
  | _ => Except.error PyErr.validationError

/-- Modelled from the spec: validating construction `DigitalProduct(**d)`,
raising when a required field is missing or ill-typed. -/
def DigitalProduct.validate (d : Dict) : Except PyErr DigitalProduct := do
  let i ← reqStr d "id"
  let t ← reqStr d "title"
  let ds ← reqStr d "description"
  let p ← match dictGet d "price" with
    | Option.some (PyVal.num q) => Except.ok q
    | _ => Except.error PyErr.validationError
  let c ← reqStr d "cover_image"
  let cat ← reqStr d "category"
  let du ← optStr d "download_url"
  let st ← match dictGet d "in_stock" with
    | Option.some (PyVal.boolean b) => Except.ok b
    | _ => Except.error PyErr.validationError
  Except.ok ⟨i, t, ds, p, c, cat, du, st⟩

/-- Modelled from the spec: validating construction `LibraryItem(**d)`,
raising when a required field is missing or ill-typed, or the kind is outside
the enum book|video|streaming. -/
def LibraryItem.validate (d : Dict) : Except PyErr LibraryItem := do
  let t ← reqStr d "title"
  let k ← reqStr d "kind"
  if k = "book" ∨ k = "video" ∨ k = "streaming" then
    let pf ← reqStr d "platform"
    let l ← reqStr d "link"
    let th ← reqStr d "thumbnail"
    let a ← reqStr d "author_or_channel"
    let n ← reqStr d "note"
    Except.ok ⟨t, k, pf, l, th, a, n⟩
  else Except.error PyErr.validationError

/-- Modelled from the spec: `database.py` is not in the source tree. A store
connection: named collections of documents, a connectivity flag making every
fetch raise, and the outcome of the next write (`writeErr` set means the
write is rejected with that message, else it returns `writeId`). -/
structure Store where
  colls : String → List Dict
  fetchFails : Bool
  writeErr : Option String
  writeId : String

/-- Exact-match filter semantics of the shim: every key-value pair of the
filter map must be an equality on the document. -/
def matchesFilter (f : Dict) (d : Dict) : Bool :=
  f.all (fun p => dictGet d p.1 = Option.some p.2)

/-- Modelled from the spec: `fetch_many` of the shim — all records of the
collection matching an optional equality filter; raises on connectivity loss. -/
def get_documents (s : Store) (c : String) (f : Dict) : Except PyErr (List Dict) :=
  if s.fetchFails then Except.error PyErr.storeError
  else Except.ok ((s.colls c).filter (matchesFilter f))

/-- Modelled from the spec: `insert` of the shim — persists a record and
returns its identifier, or raises a StoreError carrying a message. -/
def create_document (s : Store) (_c : String) (_data : Dict) : Except String String :=
  match s.writeErr with
  | Option.some m => Except.error m
  | Option.none => Except.ok s.writeId

/-- A runtime value in a products response: a raw demo dict, or a validated
pydantic `DigitalProduct` model instance built from a store document. -/
inductive ProdObj where
  | dict (d : Dict)
  | model (m : DigitalProduct)
deriving DecidableEq

/-- A runtime value in a library response: a raw demo dict, or a validated
pydantic `LibraryItem` model instance built from a store document. -/
inductive LibObj where
  | dict (d : Dict)
  | model (m : LibraryItem)
deriving DecidableEq

/-- Python subscription `i["kind"]` etc. on a library response value: key
lookup on a dict (KeyError when absent), but a TypeError on a pydantic model
instance, which is not subscriptable. -/
def LibObj.getitem : LibObj → String → Except PyErr PyVal
  | .dict d, k =>
      match dictGet d k with
      | Option.some v => Except.ok v
      | Option.none => Except.error PyErr.keyError
  | .model _, _ => Except.error PyErr.typeError

/-- Source `main.py` line 136: the list comprehension
`[DigitalProduct(**_serialize(d)) for d in docs]`; the first validation
error aborts the whole comprehension. -/
def buildProducts : List Dict → Except PyErr (List DigitalProduct)
  | [] => Except.ok []
  | d :: rest =>
      match DigitalProduct.validate (_serialize d) with
      | Except.error e => Except.error e
      | Except.ok m =>
          match buildProducts rest with
          | Except.error e => Except.error e
          | Except.ok ms => Except.ok (m :: ms)

/-- Source `main.py` line 172: the list comprehension
`[LibraryItem(**_serialize(d)) for d in docs]`. -/
def buildLibItems : List Dict → Except PyErr (List LibraryItem)
  | [] => Except.ok []
  | d :: rest =>
      match LibraryItem.validate (_serialize d) with
      | Except.error e => Except.error e
      | Except.ok m =>
          match buildLibItems rest with
          | Except.error e => Except.error e
          | Except.ok ms => Except.ok (m :: ms)

/-- Source `main.py` line 176: the list comprehension
`[i for i in items if i\x7b"kind"\x7d == kind]` over heterogeneous response
values; subscripting raises on model instances. -/
def filterByKind (k : String) : List LibObj → Except PyErr (List LibObj)
  | [] => Except.ok []
  | i :: rest =>
      match i.getitem "kind" with
      | Except.error e => Except.error e
      | Except.ok v =>
          match filterByKind k rest with
          | Except.error e => Except.error e
          | Except.ok tail => Except.ok (if v = PyVal.str k then i :: tail else tail)

/-- Source `main.py` lines 129-136: the `try` body of `list_products`. -/
def listProductsBody (db : Option Store) : Except PyErr (List ProdObj) :=
  match db with
  | Option.none => Except.ok (DEMO_PRODUCTS.map ProdObj.dict)
  | Option.some s =>
      match get_documents s "digitalproduct" [] with
      | Except.error e => Except.error e
      | Except.ok docs =>
          if docs = [] then Except.ok (DEMO_PRODUCTS.map ProdObj.dict)
          else
            match buildProducts docs with
            | Except.error e => Except.error e
            | Except.ok ms => Except.ok (ms.map ProdObj.model)

/-- Source `main.py` lines 127-138: `GET /api/products` — the `try` body with the
catch-all returning the demo set. -/
def list_products (db : Option Store) : List ProdObj :=
  match listProductsBody db with
  | Except.ok r => r
  | Except.error _ => DEMO_PRODUCTS.map ProdObj.dict

/-- Python truthiness of the optional `kind` query parameter: `None` and the
empty string are falsy. -/
def kindTruthy : Option String → Bool
  | Option.none => false
  | Option.some s => !s.isEmpty

/-- Source `main.py` line 170: `filter_q = \x7b"kind": kind\x7d if kind else \x7b\x7d`. -/
def libFilterQ : Option String → Dict
  | Option.none => []
  | Option.some k => if k.isEmpty then [] else [("kind", PyVal.str k)]

/-- Source `main.py` lines 167-174: selection of the `items` list — demo
dicts when there is no connection, else the fetched documents validated into
model instances, falling back to the demo dicts when nothing was fetched. -/
def libraryItemsStep (db : Option Store) (kind : Option String) : Except PyErr (List LibObj) :=
  match db with
  | Option.none => Except.ok (DEMO_LIBRARY.map LibObj.dict)
  | Option.some s =>
      match get_documents s "libraryitem" (libFilterQ kind) with
      | Except.error e => Except.error e
      | Except.ok docs =>
          if docs = [] then Except.ok (DEMO_LIBRARY.map LibObj.dict)
          else
            match buildLibItems docs with
            | Except.error e => Except.error e
            | Except.ok ms =>
                if ms = [] then Except.ok (DEMO_LIBRARY.map LibObj.dict)
                else Except.ok (ms.map LibObj.model)

/-- Source `main.py` lines 166-177: the `try` body of `list_library` —
the item selection followed by the client-side re-filter when `kind` is
truthy. -/
def listLibraryBody (db : Option Store) (kind : Option String) : Except PyErr (List LibObj) :=
  match libraryItemsStep db kind with
  | Except.error e => Except.error e
  | Except.ok items =>
      match kind with
      | Option.some k => if k.isEmpty then Except.ok items else filterByKind k items
      | Option.none => Except.ok items

/-- Source `main.py` line 179: the `except` fallback
`[i for i in DEMO_LIBRARY if (i\x7b"kind"\x7d == kind) or (kind is None)]`
(written with dict subscription; every demo item has a "kind" key). -/
def line179Filter (kind : Option String) : List LibObj :=
  (DEMO_LIBRARY.filter (fun i =>
    match kind with
    | Option.none => true
    | Option.some k => dictGet i "kind" = Option.some (PyVal.str k))).map LibObj.dict

/-- Source `main.py` lines 164-179: `GET /api/library` — the `try` body with the
catch-all returning the kind-filtered demo set. -/
def list_library (db : Option Store) (kind : Option String) : List LibObj :=
  match listLibraryBody db kind with
  | Except.ok r => r
  | Except.error _ => line179Filter kind

/-- Source `main.py` lines 144-146: the response body of `POST /api/order`, or the
HTTPException raised on a write failure. -/
inductive OrderResult where
  | ok (order_id : String) (message : String)
  | httpError (status : Nat) (detail : String)
deriving DecidableEq

/-- Source `main.py` line 156: the fixed confirmation message. -/
def ORDER_MESSAGE : String := "Order received. Check your email for delivery."

/-- Source `main.py` line 151: `order.dict()`. -/
def Order.dict (o : Order) : Dict :=
  [("email", PyVal.str o.email), ("product_id", PyVal.str o.product_id)]

/-- Source `main.py` lines 148-158: `POST /api/order`. The second component records
the store writes performed (collection name and document), empty when no
write happened. -/
def create_order (db : Option Store) (order : Order) : OrderResult × List (String × Dict) :=
  match db with
  | Option.none => (OrderResult.ok "demo-order-id" ORDER_MESSAGE, [])
  | Option.some s =>
      match create_document s "order" order.dict with
      | Except.ok oid => (OrderResult.ok oid ORDER_MESSAGE, [("order", order.dict)])
      | Except.error e => (OrderResult.httpError 500 e, [])

/-- A well-formed library store document of kind "book". -/
def bookDoc : Dict :=
  [("_id", PyVal.str "64f1"),
   ("title", PyVal.str "Store Book"),
   ("kind", PyVal.str "book"),
   ("platform", PyVal.str "StoreShelf"),
   ("link", PyVal.str "https://example.com/b"),
   ("thumbnail", PyVal.str "https://example.com/t"),
   ("author_or_channel", PyVal.str "Author A"),
   ("note", PyVal.str "from the store")]

/-- The model instance that validating `_serialize bookDoc` produces. -/
def bookItem : LibraryItem :=
  ⟨"Store Book", "book", "StoreShelf", "https://example.com/b",
   "https://example.com/t", "Author A", "from the store"⟩

/-- A well-formed product store document. -/
def prodDoc : Dict :=
  [("_id", PyVal.str "p1"),
   ("title", PyVal.str "Store Product"),
   ("description", PyVal.str "a product that lives in the store"),
   ("price", PyVal.num 5),
   ("cover_image", PyVal.str "https://example.com/c"),
   ("category", PyVal.str "ebook"),
   ("download_url", PyVal.null),
   ("in_stock", PyVal.boolean true)]

/-- The model instance that validating `_serialize prodDoc` produces. -/
def prodItem : DigitalProduct :=
  ⟨"p1", "Store Product", "a product that lives in the store", 5,
   "https://example.com/c", "ebook", Option.none, true⟩

/-- A connected store whose library collection holds exactly `bookDoc`. -/
def storeWithBook : Store :=
  ⟨fun c => if c = "libraryitem" then [bookDoc] else [], false, Option.none, "oid-1"⟩

/-- A connected store whose fetches always raise. -/
def storeFetchFailing : Store :=
  ⟨fun _ => [], true, Option.none, "oid-2"⟩

/-- A store document missing every required schema field but the title. -/
def badDoc : Dict := [("title", PyVal.str "broken")]

/-- A connected store whose library collection holds only the invalid `badDoc`. -/
def storeWithBadLib : Store :=
  ⟨fun c => if c = "libraryitem" then [badDoc] else [], false, Option.none, "oid-3"⟩

/-- A connected store whose product collection holds `prodDoc` and the invalid `badDoc`. -/
def storeWithBadProd : Store :=
  ⟨fun c => if c = "digitalproduct" then [prodDoc, badDoc] else [], false, Option.none, "oid-4"⟩

/-- A connected store whose writes are rejected with message "boom". -/
def storeWriteRejecting : Store :=
  ⟨fun _ => [], false, Option.some "boom", "oid-5"⟩

/-- A connected store with empty collections and working fetches and writes. -/
def storeEmptyOk : Store :=
  ⟨fun _ => [], false, Option.none, "oid-6"⟩

/-- Specification-level target for the library fallback ("the demo set,
subject to the kind re-filter"): the demo dicts, filtered by a truthy kind. -/
def demoServed (kind : Option String) : List LibObj :=
  match kind with
  | Option.none => DEMO_LIBRARY.map LibObj.dict
  | Option.some k =>
      if k.isEmpty then DEMO_LIBRARY.map LibObj.dict
      else (DEMO_LIBRARY.filter (fun i =>
        dictGet i "kind" = Option.some (PyVal.str k))).map LibObj.dict

theorem dictGet_dictSet_self (d : Dict) (k : String) (v : PyVal) :
    dictGet (dictSet d k v) k = Option.some v := by
  induction d with
  | nil => simp [dictSet, dictGet]
  | cons p rest ih =>
      obtain ⟨k1, v1⟩ := p
      by_cases h : k1 = k
      · simp [dictSet, dictGet, h]
      · simp [dictSet, dictGet, h, ih]

theorem dictGet_dictSet_ne (d : Dict) {k1 k2 : String} (h : k1 ≠ k2) (v : PyVal) :
    dictGet (dictSet d k1 v) k2 = dictGet d k2 := by
  induction d with
  | nil => simp [dictSet, dictGet, h]
  | cons p rest ih =>
      obtain ⟨ka, va⟩ := p
      by_cases ha : ka = k1
      · subst ha
        simp [dictSet, dictGet, h]
      · by_cases hb : ka = k2
        · simp [dictSet, dictGet, ha, hb, Ne.symm h]
        · simp [dictSet, dictGet, ha, hb, ih]

theorem dictGet_dictRemove_self (d : Dict) (k : String) :
    dictGet (dictRemove d k) k = Option.none := by
  induction d with
  | nil => simp [dictRemove, dictGet]
  | cons p rest ih =>
      obtain ⟨k1, v1⟩ := p
      by_cases h : k1 = k
      · simp [dictRemove, h, ih]
      · simp [dictRemove, dictGet, h, ih]

theorem serialize_sets_id (d : Dict) (v : PyVal) (h : dictGet d "_id" = Option.some v) :
    dictGet (_serialize d) "id" = Option.some (PyVal.str (pyStr v))
    ∧ dictGet (_serialize d) "_id" = Option.none := by
  have hne : ¬ d = [] := by
    intro hd
    subst hd
    simp [dictGet] at h
  constructor
  · simp [_serialize, hne, h, dictGet_dictSet_self]
  · simp only [_serialize, if_neg hne, h]
    rw [dictGet_dictSet_ne _ (by decide)]
    exact dictGet_dictRemove_self _ _

theorem filter_matchesFilter_nil (l : List Dict) : l.filter (matchesFilter []) = l := by
  induction l with
  | nil => rfl
  | cons a rest ih => simp [List.filter_cons, matchesFilter, ih]

theorem buildProducts_error_of_mem {l : List Dict} {d : Dict} {e : PyErr}
    (hd : d ∈ l) (he : DigitalProduct.validate (_serialize d) = Except.error e) :
    ∃ e2, buildProducts l = Except.error e2 := by
  induction l with
  | nil => cases hd
  | cons a rest ih =>
      rcases List.mem_cons.mp hd with h | h
      · subst h
        exact ⟨e, by simp [buildProducts, he]⟩
      · match hv : DigitalProduct.validate (_serialize a) with
        | Except.error e1 => exact ⟨e1, by simp [buildProducts, hv]⟩
        | Except.ok m =>
            obtain ⟨e2, h2⟩ := ih h
            exact ⟨e2, by simp [buildProducts, hv, h2]⟩

theorem buildLibItems_error_of_mem {l : List Dict} {d : Dict} {e : PyErr}
    (hd : d ∈ l) (he : LibraryItem.validate (_serialize d) = Except.error e) :
    ∃ e2, buildLibItems l = Except.error e2 := by
  induction l with
  | nil => cases hd
  | cons a rest ih =>
      rcases List.mem_cons.mp hd with h | h
      · subst h
        exact ⟨e, by simp [buildLibItems, he]⟩
      · match hv : LibraryItem.validate (_serialize a) with
        | Except.error e1 => exact ⟨e1, by simp [buildLibItems, hv]⟩
        | Except.ok m =>
            obtain ⟨e2, h2⟩ := ih h
            exact ⟨e2, by simp [buildLibItems, hv, h2]⟩

theorem filterByKind_ok_mem {k : String} {items r : List LibObj}
    (h : filterByKind k items = Except.ok r) :
    ∀ i ∈ r, i ∈ items
      ∧ ∃ d, i = LibObj.dict d ∧ dictGet d "kind" = Option.some (PyVal.str k) := by
  induction items generalizing r with
  | nil =>
      simp [filterByKind] at h
      subst h
      intro i hi
      cases hi
  | cons a rest ih =>
      cases a with
      | model m => simp [filterByKind, LibObj.getitem] at h
      | dict d =>
          cases hg : dictGet d "kind" with
          | none => simp [filterByKind, LibObj.getitem, hg] at h
          | some v =>
              cases hrec : filterByKind k rest with
              | error e => simp [filterByKind, LibObj.getitem, hg, hrec] at h
              | ok tail =>
                  simp only [filterByKind, LibObj.getitem, hg, hrec] at h
                  by_cases hv : v = PyVal.str k
                  · rw [if_pos hv] at h
                    injection h with h
                    subst h
                    intro i hi
                    rcases List.mem_cons.mp hi with h1 | h1
                    · subst h1
                      refine ⟨List.mem_cons_self _ _, d, rfl, ?_⟩
                      rw [hg, hv]
                    · obtain ⟨hmem, hex⟩ := ih hrec i h1
                      exact ⟨List.mem_cons_of_mem _ hmem, hex⟩
                  · rw [if_neg hv] at h
                    injection h with h
                    subst h
                    intro i hi
                    obtain ⟨hmem, hex⟩ := ih hrec i hi
                    exact ⟨List.mem_cons_of_mem _ hmem, hex⟩

theorem line179Filter_mem {kind : Option String} {i : LibObj}
    (hi : i ∈ line179Filter kind) :
    ∃ d ∈ DEMO_LIBRARY, i = LibObj.dict d
      ∧ ∀ k, kind = Option.some k → dictGet d "kind" = Option.some (PyVal.str k) := by
  unfold line179Filter at hi
  obtain ⟨d, hd, rfl⟩ := List.mem_map.mp hi
  have hmf := List.mem_filter.mp hd
  refine ⟨d, hmf.1, rfl, ?_⟩
  intro k hk
  subst hk
  simpa using hmf.2

theorem filterByKind_demo (k : String) :
    filterByKind k (DEMO_LIBRARY.map LibObj.dict)
      = Except.ok ((DEMO_LIBRARY.filter (fun i =>
          dictGet i "kind" = Option.some (PyVal.str k))).map LibObj.dict) := by
  by_cases hb : k = "book"
  · subst hb; rfl
  · by_cases hv : k = "video"
    · subst hv; rfl
    · by_cases hs : k = "streaming"
      · subst hs; rfl
      · have hb2 : ¬ "book" = k := fun h => hb h.symm
        have hv2 : ¬ "video" = k := fun h => hv h.symm
        have hs2 : ¬ "streaming" = k := fun h => hs h.symm
        simp [filterByKind, LibObj.getitem, DEMO_LIBRARY, demoLib1, demoLib2,
          demoLib3, dictGet, List.filter_cons, hb2, hv2, hs2]

theorem listProductsBody_ok_cases {db : Option Store} {r : List ProdObj}
    (h : listProductsBody db = Except.ok r) :
    r = DEMO_PRODUCTS.map ProdObj.dict
      ∨ ∃ ms : List DigitalProduct, r = List.map ProdObj.model ms := by
  cases db with
  | none =>
      simp [listProductsBody] at h
      exact Or.inl h.symm
  | some s =>
      cases hg : get_documents s "digitalproduct" [] with
      | error e => simp [listProductsBody, hg] at h
      | ok docs =>
          simp only [listProductsBody, hg] at h
          by_cases hd : docs = []
          · rw [if_pos hd] at h
            injection h with h
            exact Or.inl h.symm
          · rw [if_neg hd] at h
            cases hbp : buildProducts docs with
            | error e => simp [hbp] at h
            | ok ms =>
                simp only [hbp] at h
                injection h with h
                exact Or.inr ⟨ms, h.symm⟩

theorem libraryItemsStep_ok_cases {db : Option Store} {kind : Option String}
    {items : List LibObj} (h : libraryItemsStep db kind = Except.ok items) :
    items = DEMO_LIBRARY.map LibObj.dict
      ∨ ∃ ms : List LibraryItem, items = List.map LibObj.model ms := by
  cases db with
  | none =>
      simp [libraryItemsStep] at h
      exact Or.inl h.symm
  | some s =>
      cases hg : get_documents s "libraryitem" (libFilterQ kind) with
      | error e => simp [libraryItemsStep, hg] at h
      | ok docs =>
          simp only [libraryItemsStep, hg] at h
          by_cases hd : docs = []
          · rw [if_pos hd] at h
            injection h with h
            exact Or.inl h.symm
          · rw [if_neg hd] at h
            cases hbl : buildLibItems docs with
            | error e => simp [hbl] at h
            | ok ms =>
                simp only [hbl] at h
                by_cases hm : ms = []
                · rw [if_pos hm] at h
                  injection h with h
                  exact Or.inl h.symm
                · rw [if_neg hm] at h
                  injection h with h
                  exact Or.inr ⟨ms, h.symm⟩

theorem listLibraryBody_ok_sources {db : Option Store} {kind : Option String}
    {r : List LibObj} (h : listLibraryBody db kind = Except.ok r) :
    ∃ items, libraryItemsStep db kind = Except.ok items
      ∧ (r = items ∨ filterByKind ((kind.getD "")) items = Except.ok r) := by
  cases hs : libraryItemsStep db kind with
  | error e => simp [listLibraryBody, hs] at h
  | ok items =>
      refine ⟨items, rfl, ?_⟩
      cases kind with
      | none =>
          simp only [listLibraryBody, hs] at h
          injection h with h
          exact Or.inl h.symm
      | some k =>
          simp only [listLibraryBody, hs] at h
          by_cases hk : k.isEmpty
          · rw [if_pos hk] at h
            injection h with h
            exact Or.inl h.symm
          · rw [if_neg hk] at h
            exact Or.inr (by simpa using h)

theorem list_library_mem_cases {db : Option Store} {kind : Option String} {i : LibObj}
    (hi : i ∈ list_library db kind) :
    (∃ d ∈ DEMO_LIBRARY, i = LibObj.dict d) ∨ ∃ m, i = LibObj.model m := by
  cases hb : listLibraryBody db kind with
  | error e =>
      simp only [list_library, hb] at hi
      obtain ⟨d, hd, hid, _⟩ := line179Filter_mem hi
      exact Or.inl ⟨d, hd, hid⟩
  | ok r =>
      simp only [list_library, hb] at hi
      obtain ⟨items, hs, hsrc⟩ := listLibraryBody_ok_sources hb
      have hmem : i ∈ items := by
        rcases hsrc with rfl | hf
        · exact hi
        · exact (filterByKind_ok_mem hf i hi).1
      rcases libraryItemsStep_ok_cases hs with hdemo | ⟨ms, hms⟩
      · subst hdemo
        obtain ⟨d, hd, hid⟩ := List.mem_map.mp hmem
        exact Or.inl ⟨d, hd, hid.symm⟩
      · subst hms
        obtain ⟨m, _, him⟩ := List.mem_map.mp hmem
        exact Or.inr ⟨m, him.symm⟩

theorem demo_dicts_have_no_id_keys :
    (∀ d ∈ DEMO_PRODUCTS, dictGet d "_id" = Option.none ∧ dictGet d "id" = Option.none)
    ∧ ∀ d ∈ DEMO_LIBRARY, dictGet d "_id" = Option.none ∧ dictGet d "id" = Option.none := by
  decide

/-- Claim C2: for every read endpoint, when no store connection exists, or the
fetch succeeds but returns zero records, the response equals the built-in
static demo set (for the library, subject to the kind re-filter). -/
theorem reads_serve_demo_when_unconfigured_or_empty :
    (∀ db : Option Store,
      (db = Option.none
        ∨ ∃ s, db = Option.some s ∧ s.fetchFails = false
            ∧ (s.colls "digitalproduct").filter (matchesFilter []) = []) →
      list_products db = DEMO_PRODUCTS.map ProdObj.dict)
    ∧ (∀ (db : Option Store) (kind : Option String),
      (db = Option.none
        ∨ ∃ s, db = Option.some s ∧ s.fetchFails = false
            ∧ (s.colls "libraryitem").filter (matchesFilter (libFilterQ kind)) = []) →
      list_library db kind = demoServed kind) := by
  constructor
  · intro db h
    rcases h with rfl | ⟨s, rfl, hf, hc⟩
    · rfl
    · simp [list_products, listProductsBody, get_documents, hf, hc]
  · intro db kind h
    have hstep : libraryItemsStep db kind = Except.ok (DEMO_LIBRARY.map LibObj.dict) := by
      rcases h with rfl | ⟨s, rfl, hf, hc⟩
      · rfl
      · simp [libraryItemsStep, get_documents, hf, hc]
    cases kind with
    | none => simp [list_library, listLibraryBody, hstep, demoServed]
    | some k =>
        by_cases hk : k.isEmpty
        · simp [list_library, listLibraryBody, hstep, hk, demoServed]
        · simp [list_library, listLibraryBody, hstep, hk, demoServed, filterByKind_demo k]

theorem reads_serve_demo_when_unconfigured_or_empty_witness :
    list_products (Option.some storeEmptyOk) = DEMO_PRODUCTS.map ProdObj.dict
    ∧ list_library (Option.some storeEmptyOk) (Option.some "book")
        = demoServed (Option.some "book") :=
  ⟨reads_serve_demo_when_unconfigured_or_empty.1 (Option.some storeEmptyOk)
      (Or.inr ⟨storeEmptyOk, rfl, rfl, rfl⟩),
    reads_serve_demo_when_unconfigured_or_empty.2 (Option.some storeEmptyOk)
      (Option.some "book") (Or.inr ⟨storeEmptyOk, rfl, rfl, rfl⟩)⟩

/-- Claim C3: for GET /api/library with a truthy kind filter, every item of
the response — whether it came from the store path or from the demo fallback
— is a record whose kind equals the requested kind. -/
theorem library_kind_filter_enforced_on_all_sources :
    ∀ (db : Option Store) (k : String), k ≠ "" →
      ∀ i ∈ list_library db (Option.some k),
        ∃ d, i = LibObj.dict d ∧ dictGet d "kind" = Option.some (PyVal.str k) := by
  intro db k hk i hi
  cases hb : listLibraryBody db (Option.some k) with
  | error e =>
      simp only [list_library, hb] at hi
      obtain ⟨d, _, hid, hkind⟩ := line179Filter_mem hi
      exact ⟨d, hid, hkind k rfl⟩
  | ok r =>
      simp only [list_library, hb] at hi
      have hke : ¬ k.isEmpty := by
        simpa [String.isEmpty_iff] using hk
      cases hs : libraryItemsStep db (Option.some k) with
      | error e => simp [listLibraryBody, hs] at hb
      | ok items =>
          simp only [listLibraryBody, hs] at hb
          rw [if_neg hke] at hb
          obtain ⟨_, d, hid, hkind⟩ := filterByKind_ok_mem hb i hi
          exact ⟨d, hid, hkind⟩

theorem library_kind_filter_enforced_on_all_sources_witness :
    ("book" : String) ≠ ""
    ∧ LibObj.dict demoLib1 ∈ list_library (Option.some storeWithBook) (Option.some "book")
    ∧ ∃ d, LibObj.dict demoLib1 = LibObj.dict d
        ∧ dictGet d "kind" = Option.some (PyVal.str "book") :=
  ⟨by decide, by decide,
    library_kind_filter_enforced_on_all_sources (Option.some storeWithBook) "book"
      (by decide) (LibObj.dict demoLib1) (by decide)⟩

/-- Claim C4: the read handlers never propagate an error: whenever the try
body raises, the handler still returns the demo-derived fallback list (the
demo products, resp. the kind-filtered demo library). -/
theorem read_handlers_absorb_all_errors :
    (∀ (db : Option Store) (e : PyErr),
        listProductsBody db = Except.error e →
        list_products db = DEMO_PRODUCTS.map ProdObj.dict)
    ∧ (∀ (db : Option Store) (kind : Option String) (e : PyErr),
        listLibraryBody db kind = Except.error e →
        list_library db kind = line179Filter kind
          ∧ ∀ i ∈ list_library db kind, i ∈ DEMO_LIBRARY.map LibObj.dict) := by
  constructor
  · intro db e h
    simp [list_products, h]
  · intro db kind e h
    have hl : list_library db kind = line179Filter kind := by simp [list_library, h]
    refine ⟨hl, ?_⟩
    intro i hi
    rw [hl] at hi
    obtain ⟨d, hd, hid, _⟩ := line179Filter_mem hi
    rw [hid]
    exact List.mem_map_of_mem _ hd

theorem read_handlers_absorb_all_errors_witness :
    listProductsBody (Option.some storeFetchFailing) = Except.error PyErr.storeError
    ∧ list_products (Option.some storeFetchFailing) = DEMO_PRODUCTS.map ProdObj.dict
    ∧ listLibraryBody (Option.some storeFetchFailing) (Option.some "book")
        = Except.error PyErr.storeError
    ∧ list_library (Option.some storeFetchFailing) (Option.some "book")
        = line179Filter (Option.some "book") :=
  ⟨rfl, read_handlers_absorb_all_errors.1 (Option.some storeFetchFailing)
      PyErr.storeError rfl, rfl,
    (read_handlers_absorb_all_errors.2 (Option.some storeFetchFailing)
      (Option.some "book") PyErr.storeError rfl).1⟩

/-- Claim C5 counterexample: the demo-path products response contains a
record — the first demo product — that carries no `id` field at all, so not
every record in every list response has an `id` string field. -/
theorem demo_products_response_lacks_id :
    list_products Option.none = [ProdObj.dict demoProduct1, ProdObj.dict demoProduct2]
    ∧ dictGet demoProduct1 "id" = Option.none :=
  ⟨rfl, rfl⟩

/-- Claim C5 (amended): no response record carries the raw `_id` key — the
dict-shaped records of any list response (the demo fallback ones) carry
neither `_id` nor `id`, and `_serialize` renames a fetched document's `_id`
to a public `id` string field and removes `_id` before model construction. -/
theorem response_id_normalization :
    (∀ (db : Option Store), ∀ i ∈ list_products db, ∀ d, i = ProdObj.dict d →
        dictGet d "_id" = Option.none ∧ dictGet d "id" = Option.none)
    ∧ (∀ (db : Option Store) (kind : Option String), ∀ i ∈ list_library db kind,
        ∀ d, i = LibObj.dict d →
        dictGet d "_id" = Option.none ∧ dictGet d "id" = Option.none)
    ∧ (∀ (d : Dict) (v : PyVal), dictGet d "_id" = Option.some v →
        dictGet (_serialize d) "id" = Option.some (PyVal.str (pyStr v))
          ∧ dictGet (_serialize d) "_id" = Option.none) := by
  refine ⟨?_, ?_, fun d v h => serialize_sets_id d v h⟩
  · intro db i hi d hd
    subst hd
    have hdemo : ∀ hm : ProdObj.dict d ∈ DEMO_PRODUCTS.map ProdObj.dict,
        dictGet d "_id" = Option.none ∧ dictGet d "id" = Option.none := by
      intro hm
      obtain ⟨d2, hd2, he⟩ := List.mem_map.mp hm
      injection he with he
      subst he
      exact demo_dicts_have_no_id_keys.1 _ hd2
    cases hb : listProductsBody db with
    | error e =>
        simp only [list_products, hb] at hi
        exact hdemo hi
    | ok r =>
        simp only [list_products, hb] at hi
        rcases listProductsBody_ok_cases hb with hr | ⟨ms, hms⟩
        · subst hr
          exact hdemo hi
        · subst hms
          obtain ⟨m, _, he⟩ := List.mem_map.mp hi
          exact ProdObj.noConfusion he
  · intro db kind i hi d hd
    subst hd
    rcases list_library_mem_cases hi with ⟨d2, hd2, he⟩ | ⟨m, he⟩
    · injection he with he
      subst he
      exact demo_dicts_have_no_id_keys.2 _ hd2
    · exact LibObj.noConfusion he

theorem response_id_normalization_witness :
    dictGet demoProduct1 "_id" = Option.none
    ∧ dictGet demoProduct1 "id" = Option.none
    ∧ dictGet (_serialize bookDoc) "id" = Option.some (PyVal.str "64f1")
    ∧ dictGet (_serialize bookDoc) "_id" = Option.none :=
  ⟨(response_id_normalization.1 Option.none (ProdObj.dict demoProduct1) (by decide)
      demoProduct1 rfl).1,
    (response_id_normalization.1 Option.none (ProdObj.dict demoProduct1) (by decide)
      demoProduct1 rfl).2,
    (response_id_normalization.2.2 bookDoc (PyVal.str "64f1") rfl).1,
    (response_id_normalization.2.2 bookDoc (PyVal.str "64f1") rfl).2⟩

/-- Claim C6: the demo fallback of GET /api/library under a kind filter
serves exactly the matching demo items: kind "book" yields exactly the one
book among the three demo items, and an unmatched kind such as "podcast"
yields the empty array rather than an error. -/
theorem library_demo_kind_filter_counts :
    list_library Option.none (Option.some "book") = [LibObj.dict demoLib1]
    ∧ dictGet demoLib1 "kind" = Option.some (PyVal.str "book")
    ∧ DEMO_LIBRARY = [demoLib1, demoLib2, demoLib3]
    ∧ list_library Option.none (Option.some "podcast") = ([] : List LibObj) :=
  ⟨rfl, rfl, rfl, rfl⟩

/-- Claim C7: with no store connection, POST /api/order returns the fixed
demo order id and confirmation message for every schema-valid order, and
performs no store write (the write log stays empty). -/
theorem order_demo_mode_without_store :
    ∀ o : Order, create_order Option.none o
      = (OrderResult.ok "demo-order-id" "Order received. Check your email for delivery.",
          ([] : List (String × Dict))) :=
  fun _ => rfl

theorem order_demo_mode_without_store_witness :
    create_order Option.none ⟨"user@example.com", "p1"⟩
      = (OrderResult.ok "demo-order-id" "Order received. Check your email for delivery.",
          ([] : List (String × Dict))) :=
  order_demo_mode_without_store ⟨"user@example.com", "p1"⟩

/-- Claim C8: with a store connection whose write raises an error with
message m, POST /api/order raises HTTP 500 whose detail is exactly m (and in
particular non-empty when m is non-empty); nothing is persisted and no
fallback identifier is produced. -/
theorem order_write_failure_returns_500 :
    ∀ (s : Store) (o : Order) (m : String), s.writeErr = Option.some m →
      create_order (Option.some s) o
          = (OrderResult.httpError 500 m, ([] : List (String × Dict)))
      ∧ (m ≠ "" → ∃ detail, (create_order (Option.some s) o).1
            = OrderResult.httpError 500 detail ∧ detail ≠ "") := by
  intro s o m h
  constructor
  · simp [create_order, create_document, h]
  · intro hm
    exact ⟨m, by simp [create_order, create_document, h], hm⟩

theorem order_write_failure_returns_500_witness :
    storeWriteRejecting.writeErr = Option.some "boom"
    ∧ create_order (Option.some storeWriteRejecting) ⟨"user@example.com", "p1"⟩
        = (OrderResult.httpError 500 "boom", ([] : List (String × Dict))) :=
  ⟨rfl, (order_write_failure_returns_500 storeWriteRejecting
      ⟨"user@example.com", "p1"⟩ "boom" rfl).1⟩

/-- Claim C9: when the fetch succeeds with at least one record but validating
some fetched record into the response model raises, the read handler
discards every fetched record and serves the demo set (for the library, the
demo set re-filtered by kind), never a partial list of the valid records. -/
theorem invalid_fetched_record_falls_back_to_demo :
    (∀ (s : Store) (d : Dict) (e : PyErr),
        s.fetchFails = false →
        d ∈ s.colls "digitalproduct" →
        DigitalProduct.validate (_serialize d) = Except.error e →
        list_products (Option.some s) = DEMO_PRODUCTS.map ProdObj.dict)
    ∧ (∀ (s : Store) (kind : Option String) (d : Dict) (e : PyErr),
        s.fetchFails = false →
        d ∈ (s.colls "libraryitem").filter (matchesFilter (libFilterQ kind)) →
        LibraryItem.validate (_serialize d) = Except.error e →
        list_library (Option.some s) kind = line179Filter kind) := by
  constructor
  · intro s d e hf hd he
    have hdocs : get_documents s "digitalproduct" []
        = Except.ok (s.colls "digitalproduct") := by
      simp [get_documents, hf, filter_matchesFilter_nil]
    obtain ⟨e2, hbp⟩ := buildProducts_error_of_mem hd he
    have hne : ¬ (s.colls "digitalproduct") = [] := by
      intro h0
      rw [h0] at hd
      cases hd
    simp [list_products, listProductsBody, hdocs, hne, hbp]
  · intro s kind d e hf hd he
    have hdocs : get_documents s "libraryitem" (libFilterQ kind)
        = Except.ok ((s.colls "libraryitem").filter (matchesFilter (libFilterQ kind))) := by
      simp [get_documents, hf]
    obtain ⟨e2, hbl⟩ := buildLibItems_error_of_mem hd he
    have hne : ¬ ((s.colls "libraryitem").filter (matchesFilter (libFilterQ kind))) = [] := by
      intro h0
      rw [h0] at hd
      cases hd
    have hstep : libraryItemsStep (Option.some s) kind = Except.error e2 := by
      simp [libraryItemsStep, hdocs, hne, hbl]
    simp [list_library, listLibraryBody, hstep]

theorem invalid_fetched_record_falls_back_to_demo_witness :
    storeWithBadProd.fetchFails = false
    ∧ badDoc ∈ storeWithBadProd.colls "digitalproduct"
    ∧ DigitalProduct.validate (_serialize badDoc) = Except.error PyErr.validationError
    ∧ list_products (Option.some storeWithBadProd) = DEMO_PRODUCTS.map ProdObj.dict
    ∧ badDoc ∈ (storeWithBadLib.colls "libraryitem").filter (matchesFilter (libFilterQ Option.none))
    ∧ LibraryItem.validate (_serialize badDoc) = Except.error PyErr.validationError
    ∧ list_library (Option.some storeWithBadLib) Option.none = line179Filter Option.none := by
  refine ⟨rfl, by decide, rfl, ?_, by decide, rfl, ?_⟩
  · exact invalid_fetched_record_falls_back_to_demo.1 storeWithBadProd badDoc
      PyErr.validationError rfl (by decide) rfl
  · exact invalid_fetched_record_falls_back_to_demo.2 storeWithBadLib Option.none badDoc
      PyErr.validationError rfl (by decide) rfl

/-- Claim C10: an empty-string kind query parameter is falsy, hence treated
as no filter on the non-error path: with kind="" and no store connection the
full unfiltered demo library (all 3 items) is returned, identical to the
response without any kind parameter, and the store-level filter map would be
empty as well. -/
theorem empty_kind_is_no_filter_on_demo_path :
    list_library Option.none (Option.some "") = DEMO_LIBRARY.map LibObj.dict
    ∧ (list_library Option.none (Option.some "")).length = 3
    ∧ list_library Option.none (Option.some "") = list_library Option.none Option.none
    ∧ libFilterQ (Option.some "") = ([] : Dict)
    ∧ kindTruthy (Option.some "") = false :=
  ⟨rfl, rfl, rfl, rfl, rfl⟩

/-- Claim C1 (evaluation of the failing input): with a connected store whose
library collection holds exactly one valid record of kind "book", the
store-level fetch for kind="book" succeeds with that record and, without a
kind filter, the handler serves its model; but with kind="book" supplied the
client-side re-filter subscripts the pydantic model instance, raises
TypeError, and the handler serves the kind-filtered demo set instead of the
fetched record. -/
theorem library_kind_filter_drops_fetched_records :
    get_documents storeWithBook "libraryitem" (libFilterQ (Option.some "book"))
        = Except.ok [bookDoc]
    ∧ buildLibItems [bookDoc] = Except.ok [bookItem]
    ∧ list_library (Option.some storeWithBook) Option.none = [LibObj.model bookItem]
    ∧ list_library (Option.some storeWithBook) (Option.some "book") = [LibObj.dict demoLib1]
    ∧ LibObj.dict demoLib1 ≠ LibObj.model bookItem :=
  ⟨rfl, rfl, rfl, rfl, by decide⟩

end EProducts
